import Mathlib

/-!
Verification of the path-tracking controller in
`src/me5413_world/src/path_tracker_node.cpp` (`me5413_world::PathTrackerNode`).

The C++ code computes over IEEE doubles; we embed it over the reals, which is
the semantics the specification's claims are phrased in (exact clamp
boundaries, exact multiples of pi).  Library calls (`std::atan2`, `std::sqrt`,
`std::min`, `std::max`, `tf2::getYaw`) are modelled by their mathematical
definitions; everything else is translated line by line from the source.
-/

set_option linter.unusedVariables false

open Real

noncomputable section

namespace me5413_world

/-- `geometry_msgs::Point` (only `x`, `y`, `z` coordinate fields). -/
structure Point where
  x : ℝ
  y : ℝ
  z : ℝ

/-- `geometry_msgs::Quaternion`. -/
structure Quaternion where
  x : ℝ
  y : ℝ
  z : ℝ
  w : ℝ

/-- `geometry_msgs::Pose`: position plus orientation quaternion. -/
structure Pose where
  position : Point
  orientation : Quaternion

/-- `geometry_msgs::Vector3`. -/
structure Vector3 where
  x : ℝ
  y : ℝ
  z : ℝ

/-- `geometry_msgs::Twist`: linear and angular velocity.  A default-constructed
`Twist` message has every field zero. -/
structure Twist where
  linear : Vector3
  angular : Vector3

/-- `geometry_msgs::PoseWithCovariance` (covariance unused by the node). -/
structure PoseWithCovariance where
  pose : Pose

/-- `geometry_msgs::TwistWithCovariance` (covariance unused by the node). -/
structure TwistWithCovariance where
  twist : Twist

/-- `nav_msgs::Odometry`, restricted to the fields the node reads:
`odom.pose.pose` and `odom.twist.twist`. -/
structure Odometry where
  pose : PoseWithCovariance
  twist : TwistWithCovariance

/-- One entry of `nav_msgs::Path::poses` (`geometry_msgs::PoseStamped`). -/
structure PoseStamped where
  pose : Pose

/-- `nav_msgs::Path`: an ordered sequence of stamped poses. -/
structure Path where
  poses : List PoseStamped

/-- The node's dynamic parameters, the file-scope globals set by
`dynamicParamCallback` (lines 16-28).  `DEFAULT_LOOKAHEAD_DISTANCE` is
declared `bool` in the source, mirroring `config.lookahead_distance`. -/
structure Params where
  MAX_THROTTLE : ℝ
  THROTTLE_GAIN : ℝ
  ROBOT_LENGTH : ℝ
  DEFAULT_LOOKAHEAD_DISTANCE : Bool

/-- Mathematical model of C `std::atan2 y x`: the angle of the vector `(x, y)`
in `(-pi, pi]` (real semantics; the C signed-zero distinctions collapse). -/
def atan2 (y x : ℝ) : ℝ :=
  if 0 < x then arctan (y / x)
  else if x < 0 then
    (if 0 ≤ y then arctan (y / x) + π else arctan (y / x) - π)
  else
    (if 0 < y then π / 2 else if y < 0 then -(π / 2) else 0)

/-- Model of `tf2::getYaw` (tf2 `impl/utils.h`): yaw extracted from a
quaternion, with the gimbal-lock guards at `|sin(pitch)| ≥ 0.99999`. -/
def getYaw (q : Quaternion) : ℝ :=
  let sqx := q.x * q.x
  let sqy := q.y * q.y
  let sqz := q.z * q.z
  let sqw := q.w * q.w
  let sarg := -2 * (q.x * q.z - q.w * q.y) / (sqx + sqy + sqz + sqw)
  if sarg ≤ -0.99999 then -2 * atan2 q.y q.x
  else if sarg ≥ 0.99999 then 2 * atan2 q.y q.x
  else atan2 (2 * (q.x * q.y + q.w * q.z)) (sqw + sqx - sqy - sqz)

/-- `PathTrackerNode::computeDistance` (lines 82-87): planar Euclidean
distance between two points. -/
def computeDistance (p1 p2 : Point) : ℝ :=
  let dx := p2.x - p1.x
  let dy := p2.y - p1.y
  Real.sqrt (dx * dx + dy * dy)

/-- `PathTrackerNode::computeThrottle` (lines 89-93):
`std::min(MAX_THROTTLE, distance_to_goal * THROTTLE_GAIN)`. -/
def computeThrottle (p : Params) (distance_to_goal : ℝ) : ℝ :=
  min p.MAX_THROTTLE (distance_to_goal * p.THROTTLE_GAIN)

/-- `PathTrackerNode::computeLookaheadDistance` (lines 147-151):
`std::max(1.0, velocity * DEFAULT_LOOKAHEAD_DISTANCE)`, where the `bool`
parameter converts to `0.0` or `1.0` in the product. -/
def computeLookaheadDistance (p : Params) (odom_robot : Odometry) : ℝ :=
  let velocity := odom_robot.twist.twist.linear.x
  max 1 (velocity * (if p.DEFAULT_LOOKAHEAD_DISTANCE then 1 else 0))

/-- The alpha normalization step of `computeSteering` (lines 113-118):
subtract pi when above pi/2, add pi when below -pi/2. -/
def foldAlpha (alpha : ℝ) : ℝ :=
  if alpha > π / 2 then alpha - π
  else if alpha < -(π / 2) then alpha + π
  else alpha

/-- The steering clamp of `computeSteering` (lines 126-132), with
`MAX_STEERING_ANGLE = 0.5`. -/
def clampSteering (steering : ℝ) : ℝ :=
  if steering > 0.5 then 0.5
  else if steering < -0.5 then -0.5
  else steering

/-- The inline cross-track-error computation of `computeSteering`
(lines 102-108): straight-line planar distance from the robot position to the
goal position. -/
def cross_track_error (odom_robot : Odometry) (pose_goal : Pose) : ℝ :=
  let dx := pose_goal.position.x - odom_robot.pose.pose.position.x
  let dy := pose_goal.position.y - odom_robot.pose.pose.position.y
  Real.sqrt (dx * dx + dy * dy)

/-- `PathTrackerNode::computeSteering` (lines 95-145).  The heading error is
computed and logged by the source but does not flow into the result; it is
kept here as a (dead) binding for fidelity. -/
def computeSteering (p : Params) (odom_robot : Odometry) (pose_goal : Pose) : ℝ :=
  let yaw_robot := getYaw odom_robot.pose.pose.orientation
  let yaw_goal := getYaw pose_goal.orientation
  let heading_error := yaw_goal - yaw_robot
  let dx := pose_goal.position.x - odom_robot.pose.pose.position.x
  let dy := pose_goal.position.y - odom_robot.pose.pose.position.y
  let cte := cross_track_error odom_robot pose_goal
  let alpha := foldAlpha (atan2 dy dx - yaw_robot)
  let lookahead_distance := computeLookaheadDistance p odom_robot
  let steering := arctan ((2.0 * p.ROBOT_LENGTH * cte) / lookahead_distance) + alpha
  clampSteering steering

/-- `PathTrackerNode::computeControlOutputs` (lines 62-80): builds the `Twist`
command from the throttle and steering computations; all fields of the
default-constructed message other than `linear.x` and `angular.z` stay `0`. -/
def computeControlOutputs (p : Params) (odom_robot : Odometry) (pose_goal : Pose) : Twist :=
  let distance_to_goal := computeDistance odom_robot.pose.pose.position pose_goal.position
  let throttle := computeThrottle p distance_to_goal
  let steering := computeSteering p odom_robot pose_goal
  { linear := { x := throttle, y := 0, z := 0 }
    angular := { x := 0, y := 0, z := steering } }

/-- The mutable node state read and written by the two callbacks. -/
structure NodeState where
  odom_world_robot : Odometry
  pose_world_goal : Pose

/-- `PathTrackerNode::localPathCallback` (lines 44-51): stores
`path->poses[11].pose` as the goal and publishes
`computeControlOutputs(odom_world_robot_, pose_world_goal_)`.  The unchecked
`poses[11]` access requires at least 12 waypoints; the embedding is only
defined under that hypothesis, matching the undefined behavior otherwise.
Returns the new state and the published command. -/
def localPathCallback (p : Params) (s : NodeState) (path : Path)
    (h : 12 ≤ path.poses.length) : NodeState × Twist :=
  let pose_world_goal := (path.poses.get ⟨11, by omega⟩).pose
  ({ s with pose_world_goal := pose_world_goal },
   computeControlOutputs p s.odom_world_robot pose_world_goal)

/-! ### Sample concrete inputs used by witnesses -/

/-- Concrete parameter set: `max_throttle = 2`, `throttle_gain = 1`,
`robot_length = 1`, `lookahead_distance = true`. -/
def sampleParams : Params := ⟨2, 1, 1, true⟩

/-- Robot at the origin with identity orientation (yaw `0`), at rest. -/
def sampleOdom : Odometry := ⟨⟨⟨⟨0, 0, 0⟩, ⟨0, 0, 0, 1⟩⟩⟩, ⟨⟨⟨0, 0, 0⟩, ⟨0, 0, 0⟩⟩⟩⟩

/-- Goal pose at `(10, 0)` with identity orientation. -/
def sampleGoal : Pose := ⟨⟨10, 0, 0⟩, ⟨0, 0, 0, 1⟩⟩

/-- A node state built from the sample odometry and goal. -/
def sampleState : NodeState := ⟨sampleOdom, sampleGoal⟩

/-- A local path with exactly 12 identical waypoints. -/
def samplePath : Path := ⟨List.replicate 12 ⟨⟨⟨3, 4, 0⟩, ⟨0, 0, 0, 1⟩⟩⟩⟩

lemma samplePath_len : 12 ≤ samplePath.poses.length := by
  simp [samplePath]

/-! ### Helper lemmas -/

lemma clampSteering_mem_Icc (s : ℝ) : clampSteering s ∈ Set.Icc (-0.5 : ℝ) 0.5 := by
  rw [Set.mem_Icc]
  unfold clampSteering
  split_ifs <;> constructor <;> linarith

lemma computeSteering_eq_clamp (p : Params) (odom : Odometry) (goal : Pose) :
    computeSteering p odom goal =
      clampSteering
        (arctan ((2.0 * p.ROBOT_LENGTH * cross_track_error odom goal) /
            computeLookaheadDistance p odom)
          + foldAlpha (atan2 (goal.position.y - odom.pose.pose.position.y)
              (goal.position.x - odom.pose.pose.position.x)
            - getYaw odom.pose.pose.orientation)) := rfl

lemma cte_eq_computeDistance (odom : Odometry) (goal : Pose) :
    cross_track_error odom goal = computeDistance odom.pose.pose.position goal.position := rfl

/-! ### Claim theorems -/

/-- Claim C1: for every odometry input, goal pose and parameter values, the
steering value returned by `computeSteering` lies in `[-0.5, 0.5]`; the clamp
is exact at the boundary: a pre-clamp value in `[-0.5, 0.5]` (including
exactly `±0.5`) is returned unchanged, and any value beyond is mapped to the
boundary. -/
theorem computeSteering_clamped (p : Params) (odom : Odometry) (goal : Pose) :
    computeSteering p odom goal ∈ Set.Icc (-0.5 : ℝ) 0.5 ∧
    (∀ s : ℝ, -0.5 ≤ s → s ≤ 0.5 → clampSteering s = s) ∧
    (∀ s : ℝ, 0.5 ≤ s → clampSteering s = 0.5) ∧
    (∀ s : ℝ, s ≤ -0.5 → clampSteering s = -0.5) := by
  refine ⟨?_, ?_, ?_, ?_⟩
  · rw [computeSteering_eq_clamp]
    exact clampSteering_mem_Icc _
  · intro s h1 h2
    unfold clampSteering
    split_ifs <;> linarith
  · intro s h
    unfold clampSteering
    split_ifs <;> linarith
  · intro s h
    unfold clampSteering
    split_ifs <;> linarith

/-- Witness for C1 at concrete inputs: the steering at the sample inputs is in
range, values at and beyond the boundary are clamped exactly. -/
theorem computeSteering_clamped_witness :
    computeSteering sampleParams sampleOdom sampleGoal ∈ Set.Icc (-0.5 : ℝ) 0.5 ∧
    clampSteering 0.5 = 0.5 ∧ clampSteering (-0.5) = -0.5 ∧
    clampSteering 0.7 = 0.5 ∧ clampSteering (-0.7) = -0.5 :=
  ⟨(computeSteering_clamped sampleParams sampleOdom sampleGoal).1,
   (computeSteering_clamped sampleParams sampleOdom sampleGoal).2.1 0.5 (by norm_num) (by norm_num),
   (computeSteering_clamped sampleParams sampleOdom sampleGoal).2.1 (-0.5) (by norm_num) (by norm_num),
   (computeSteering_clamped sampleParams sampleOdom sampleGoal).2.2.1 0.7 (by norm_num),
   (computeSteering_clamped sampleParams sampleOdom sampleGoal).2.2.2 (-0.7) (by norm_num)⟩

/-- Claim C2: for positive `MAX_THROTTLE` and `THROTTLE_GAIN` and nonnegative
distance, `computeThrottle` equals
`min MAX_THROTTLE (distance * THROTTLE_GAIN)`, lies in `[0, MAX_THROTTLE]`,
and equals `MAX_THROTTLE` exactly when
`distance * THROTTLE_GAIN ≥ MAX_THROTTLE`. -/
theorem computeThrottle_spec (p : Params) (d : ℝ)
    (hM : 0 < p.MAX_THROTTLE) (hG : 0 < p.THROTTLE_GAIN) (hd : 0 ≤ d) :
    computeThrottle p d = min p.MAX_THROTTLE (d * p.THROTTLE_GAIN) ∧
    0 ≤ computeThrottle p d ∧ computeThrottle p d ≤ p.MAX_THROTTLE ∧
    (computeThrottle p d = p.MAX_THROTTLE ↔ p.MAX_THROTTLE ≤ d * p.THROTTLE_GAIN) :=
  ⟨rfl, le_min hM.le (mul_nonneg hd hG.le), min_le_left _ _, min_eq_left_iff⟩

/-- Witness for C2 at `MAX_THROTTLE = 2`, `THROTTLE_GAIN = 1`, distance `3`:
the throttle saturates at `MAX_THROTTLE`. -/
theorem computeThrottle_spec_witness :
    computeThrottle sampleParams 3 = sampleParams.MAX_THROTTLE :=
  (computeThrottle_spec sampleParams 3 (by norm_num [sampleParams])
      (by norm_num [sampleParams]) (by norm_num)).2.2.2.mpr
    (by norm_num [sampleParams])

/-- Claim C3: a received local path with at least 12 waypoints makes the pose
at index 11 the stored goal, leaves the stored odometry unchanged, and the
published command is `computeControlOutputs` of the most recent odometry and
that goal.  (The embedding is only defined for paths of length ≥ 12, matching
the undefined behavior of the unchecked `poses[11]` access otherwise.) -/
theorem localPathCallback_spec (p : Params) (s : NodeState) (path : Path)
    (h : 12 ≤ path.poses.length) :
    (localPathCallback p s path h).1.pose_world_goal =
      (path.poses.get ⟨11, by omega⟩).pose ∧
    (localPathCallback p s path h).1.odom_world_robot = s.odom_world_robot ∧
    (localPathCallback p s path h).2 =
      computeControlOutputs p s.odom_world_robot ((path.poses.get ⟨11, by omega⟩).pose) :=
  ⟨rfl, rfl, rfl⟩

/-- Witness for C3 on a concrete 12-waypoint path. -/
theorem localPathCallback_spec_witness :
    (localPathCallback sampleParams sampleState samplePath samplePath_len).1.pose_world_goal =
      (samplePath.poses.get ⟨11, lt_of_lt_of_le (by norm_num) samplePath_len⟩).pose :=
  (localPathCallback_spec sampleParams sampleState samplePath samplePath_len).1

/-- Claim C4: the steering value before clamping is
`atan ((2 * ROBOT_LENGTH * crossTrackError) / lookaheadDistance) + alpha`,
where `crossTrackError` is the Euclidean distance from vehicle to goal,
`lookaheadDistance` is `computeLookaheadDistance`, and `alpha` is the folded
bearing angle; `computeSteering` is the clamp of that value. -/
theorem computeSteering_formula (p : Params) (odom : Odometry) (goal : Pose) :
    computeSteering p odom goal =
      clampSteering
        (arctan ((2.0 * p.ROBOT_LENGTH *
              computeDistance odom.pose.pose.position goal.position) /
            computeLookaheadDistance p odom)
          + foldAlpha (atan2 (goal.position.y - odom.pose.pose.position.y)
              (goal.position.x - odom.pose.pose.position.x)
            - getYaw odom.pose.pose.orientation)) := rfl

/-- Claim C5 counterexample: the raw alpha value `7π/4` lies in the claimed
input range `(-2π, 2π)`, but the fold maps it to `3π/4`, which is outside
`[-π/2, π/2]` (the fold subtracts π only once). -/
theorem foldAlpha_escapes_range :
    (-(2 * π) < 7 * π / 4 ∧ 7 * π / 4 < 2 * π) ∧
    foldAlpha (7 * π / 4) ∉ Set.Icc (-(π / 2)) (π / 2) := by
  have hπ := pi_pos
  refine ⟨⟨by linarith, by linarith⟩, ?_⟩
  have h1 : foldAlpha (7 * π / 4) = 3 * π / 4 := by
    unfold foldAlpha
    rw [if_pos (by linarith)]
    ring
  rw [h1, Set.mem_Icc]
  intro hmem
  linarith [hmem.2]

/-- Claim C5 (amended): for every raw alpha in `[-3π/2, 3π/2]` — in
particular every value reachable when `atan2` and the vehicle yaw each lie in
`(-π, π]` and their difference stays within that band — the fold step
produces a value in `[-π/2, π/2]`.  (Raw alphas beyond `±3π/2`, which the
difference of two angles in `(-π, π]` can also produce, escape the range.) -/
theorem foldAlpha_mem_Icc (a : ℝ) (h1 : -(3 * π / 2) ≤ a) (h2 : a ≤ 3 * π / 2) :
    foldAlpha a ∈ Set.Icc (-(π / 2)) (π / 2) := by
  have hπ := pi_pos
  rw [Set.mem_Icc]
  unfold foldAlpha
  split_ifs <;> constructor <;> linarith

/-- Witness for the amended C5 at raw alpha `π`. -/
theorem foldAlpha_mem_Icc_witness :
    foldAlpha π ∈ Set.Icc (-(π / 2)) (π / 2) :=
  foldAlpha_mem_Icc π (by linarith [pi_pos]) (by linarith [pi_pos])

/-- Claim C6: raw alpha in `(π/2, π]` folds to `alpha - π ∈ (-π/2, 0]`; raw
alpha in `[-π, -π/2)` folds to `alpha + π ∈ [0, π/2)`; and for a vehicle at
the origin with heading 0 (identity quaternion) and goal at `(-5, 0)`, the
raw alpha `atan2(0 - 0, -5 - 0) - yaw` equals `π` and folds to exactly `0`. -/
theorem foldAlpha_halfplane (a : ℝ) :
    (π / 2 < a → a ≤ π → foldAlpha a = a - π ∧ -(π / 2) < a - π ∧ a - π ≤ 0) ∧
    (-π ≤ a → a < -(π / 2) → foldAlpha a = a + π ∧ 0 ≤ a + π ∧ a + π < π / 2) ∧
    (atan2 ((0 : ℝ) - 0) ((-5 : ℝ) - 0) - getYaw ⟨0, 0, 0, 1⟩ = π ∧ foldAlpha π = 0) := by
  have hπ := pi_pos
  refine ⟨?_, ?_, ?_, ?_⟩
  · intro ha1 ha2
    refine ⟨?_, by linarith, by linarith⟩
    unfold foldAlpha
    rw [if_pos (by linarith)]
  · intro ha1 ha2
    refine ⟨?_, by linarith, by linarith⟩
    unfold foldAlpha
    rw [if_neg (by simp; linarith), if_pos (by linarith)]
  · have hyaw : getYaw ⟨0, 0, 0, 1⟩ = 0 := by
      unfold getYaw atan2
      norm_num
    have hat : atan2 ((0 : ℝ) - 0) ((-5 : ℝ) - 0) = π := by
      unfold atan2
      norm_num
    rw [hyaw, hat]
    ring
  · unfold foldAlpha
    rw [if_pos (by linarith)]
    ring

/-- Witness for C6 at raw alphas `3π/4` and `-3π/4`. -/
theorem foldAlpha_halfplane_witness :
    (foldAlpha (3 * π / 4) = 3 * π / 4 - π ∧
      -(π / 2) < 3 * π / 4 - π ∧ 3 * π / 4 - π ≤ 0) ∧
    (foldAlpha (-(3 * π / 4)) = -(3 * π / 4) + π ∧
      0 ≤ -(3 * π / 4) + π ∧ -(3 * π / 4) + π < π / 2) :=
  ⟨(foldAlpha_halfplane (3 * π / 4)).1 (by linarith [pi_pos]) (by linarith [pi_pos]),
   (foldAlpha_halfplane (-(3 * π / 4))).2.1 (by linarith [pi_pos]) (by linarith [pi_pos])⟩

/-- Claim C7: for every odometry input and every value of the lookahead
parameter, `computeLookaheadDistance` equals
`max 1 (velocity * lookaheadFactor)` (the `bool` parameter contributing `1`
or `0` as its numeric value) and is always at least `1`. -/
theorem computeLookaheadDistance_spec (p : Params) (odom : Odometry) :
    computeLookaheadDistance p odom =
      max 1 (odom.twist.twist.linear.x *
        (if p.DEFAULT_LOOKAHEAD_DISTANCE then 1 else 0)) ∧
    1 ≤ computeLookaheadDistance p odom :=
  ⟨rfl, le_max_left _ _⟩

/-- Claim C8: the cross-track error computed inline in `computeSteering` is
the same function of the inputs as `computeDistance` applied to the vehicle
and goal positions. -/
theorem cross_track_error_spec (odom : Odometry) (goal : Pose) :
    cross_track_error odom goal = computeDistance odom.pose.pose.position goal.position := rfl

/-- Claim C9: two goal poses with the same position but different
orientations yield identical commands — the goal's orientation enters only
the logged heading error, never the throttle or steering. -/
theorem computeControlOutputs_ignores_goal_yaw (p : Params) (odom : Odometry)
    (g1 g2 : Pose) (h : g1.position = g2.position) :
    computeControlOutputs p odom g1 = computeControlOutputs p odom g2 := by
  obtain ⟨pos1, q1⟩ := g1
  obtain ⟨pos2, q2⟩ := g2
  cases h
  rfl

/-- Witness for C9: same goal position `(1, 2)`, orientations differing by a
half-turn, identical commands. -/
theorem computeControlOutputs_ignores_goal_yaw_witness :
    computeControlOutputs sampleParams sampleOdom ⟨⟨1, 2, 0⟩, ⟨0, 0, 0, 1⟩⟩ =
      computeControlOutputs sampleParams sampleOdom ⟨⟨1, 2, 0⟩, ⟨0, 0, 1, 0⟩⟩ :=
  computeControlOutputs_ignores_goal_yaw sampleParams sampleOdom _ _ rfl

/-- Claim C10: every field of the published `Twist` other than `linear.x`
and `angular.z` is zero. -/
theorem computeControlOutputs_frame (p : Params) (odom : Odometry) (goal : Pose) :
    (computeControlOutputs p odom goal).linear.y = 0 ∧
    (computeControlOutputs p odom goal).linear.z = 0 ∧
    (computeControlOutputs p odom goal).angular.x = 0 ∧
    (computeControlOutputs p odom goal).angular.y = 0 :=
  ⟨rfl, rfl, rfl, rfl⟩

end me5413_world
